import Mathlib

/-!
Verification development for the event-dispatch layer (`ophyd/_dispatch.py`).

The source is a queue-based callback dispatcher:

* `_CallbackThread` — a worker thread bound to one FIFO task queue.  Its
  `run` loop polls `self.queue.get(True, self.timeout)` while the shared
  `stop_event` is not set; on obtaining a `(callback, args, kwargs)` triple
  it records `(callback.__name__, kwargs.get('pvname'))` in
  `self.current_callback` and then invokes the callback, catching and
  logging any exception raised inside the `try` block.
* `EventDispatcher` — starts one worker for each of the three hardcoded
  categories `metadata`, `monitor`, `get_put` (each with a private queue)
  plus `utility_threads` workers sharing one utility queue; `stop()` sets
  the stop event, joins every thread, and clears the thread map.
* `wrap_callback` — returns the callback unchanged when it is `None` or
  already carries the `_wrapped_callback` marker; otherwise asserts that
  the category is registered, captures that worker's queue and returns a
  wrapper whose invocation enqueues one task on the captured queue.

Modelling conventions of the shallow embedding below:

* A Python queue.Queue holding tasks is a `List Task`; `put` appends at the
  tail and `getQ` removes the head, which is exactly the FIFO discipline of
  queue.Queue with a single consumer.
* A callback is the inductive `Cb`: `Cb.base` is an ordinary callable with
  an optional `__name__` attribute and a per-invocation behaviour (return
  normally or raise); `Cb.wrapped` is the closure produced by
  `wrap_callback`, remembering the queue it captured.  Since the worker
  invokes each dequeued task exactly once with fixed arguments, a
  per-invocation behaviour flag captures everything the claims need about
  arbitrary callables.
* The worker's `run` loop is embedded two ways, and the two are connected
  by a lemma: `runFrom` consumes an environment schedule listing, for each
  loop iteration, the value of `stop_event.is_set()` the worker observes
  and the result of the bounded `queue.get` (`none` = `queue.Empty`); this
  represents the loop under arbitrary interleaving with producers and
  `stop()`.  `drain` is the special case in which the queue holds a fixed
  task list, the get succeeds each iteration and the stop event stays
  clear.
* Executing one dequeued task (`execTask`, the `else:` block of `run`) is
  a pure state transformer on the worker state together with a list of
  observable events (dequeue, invocation, raise, exception log entry,
  enqueue performed by a wrapped callback).  The Python `try` block first
  evaluates `callback.__name__`: when the attribute is missing this raises
  `AttributeError` before the callback is ever invoked, and the `except`
  arm logs it like any other failure.
-/

namespace Dispatch

/-- Per-invocation behaviour of an ordinary Python callable: it either
returns normally or raises an exception with the given message. -/
inductive Behavior where
  | ok : Behavior
  | raises : String → Behavior
deriving DecidableEq

/-- A Python callable as seen by the dispatcher.  `base name behavior` is an
ordinary callback whose optional `__name__` attribute is `name`;
`wrapped qid target` is the closure built by `wrap_callback`, which captured
the queue with identifier `qid` and defers `target`. -/
inductive Cb where
  | base : Option String → Behavior → Cb
  | wrapped : Nat → Cb → Cb
deriving DecidableEq

/-- The `__name__` attribute of a callable, when present.  `functools.wraps`
copies the target's `__name__` onto the wrapper when the target has one;
when the target lacks it, the wrapper keeps the literal name of the inner
function `wrapped` defined in `wrap_callback`. -/
def Cb.pyName : Cb → Option String
  | .base n _ => n
  | .wrapped _ tgt => some ((Cb.pyName tgt).getD "wrapped")

/-- The value of `getattr(callback, '_wrapped_callback', False)`: only the
closures produced by `wrap_callback` carry the marker attribute. -/
def Cb.wrappedFlag : Cb → Bool
  | .base _ _ => false
  | .wrapped _ _ => true

/-- A task: the `(callback, args, kwargs)` triple placed on a queue.  The
positional arguments are carried opaquely; of the keyword arguments the
dispatcher only ever reads `kwargs.get('pvname')`, carried here as
`pvname`. -/
structure Task where
  callback : Cb
  args : List Nat
  pvname : Option String
deriving DecidableEq

/-- Invoking a callable with the stored arguments: the result (normal return
or raised exception message) together with the enqueue operations the call
performs.  An ordinary callable performs none; a wrapper produced by
`wrap_callback` performs exactly one `queue.put` of the deferred task onto
its captured queue and returns normally. -/
def Cb.invoke : Cb → List Nat → Option String → Except String Unit × List (Nat × Task)
  | .base _ Behavior.ok, _, _ => (Except.ok (), [])
  | .base _ (Behavior.raises msg), _, _ => (Except.error msg, [])
  | .wrapped qid tgt, args, pv => (Except.ok (), [(qid, ⟨tgt, args, pv⟩)])

/-- Observable events of one worker loop. -/
inductive Event where
  | dequeued : Task → Event
  | invoked : Task → Event
  | raised : Task → String → Event
  | loggedException : Cb → Option String → Event
  | enqueued : Nat → Task → Event
  | exited : Event
deriving DecidableEq

/-- State of one `_CallbackThread`: its name, the identifier of the queue it
drains, whether the OS thread is running, and the `current_callback`
diagnostic slot. -/
structure WorkerSt where
  name : String
  qid : Nat
  alive : Bool
  current_callback : Option (String × Option String)
deriving DecidableEq

/-- A freshly constructed worker thread: `current_callback` starts as `None`
in `_CallbackThread.__init__`, and `_start_thread` starts the thread. -/
def mkWorker (name : String) (qid : Nat) : WorkerSt :=
  { name := name, qid := qid, alive := true, current_callback := none }

/-- The `else:` arm of the worker loop, executing one dequeued task.  The
`try` block first evaluates `(callback.__name__, kwargs.get('pvname'))` and
stores it in `current_callback`; a callable without `__name__` makes that
lookup raise `AttributeError`, which the `except` arm catches and logs, so
the callable is never invoked and `current_callback` keeps its previous
value.  Otherwise the callback is invoked; a raised exception is caught and
logged with the callback and `kwargs.get('pvname')`, and in every case the
loop continues. -/
def execTask (s : WorkerSt) (t : Task) : WorkerSt × List Event :=
  match t.callback.pyName with
  | none => (s, [Event.dequeued t, Event.loggedException t.callback t.pvname])
  | some n =>
    let s1 : WorkerSt := { s with current_callback := some (n, t.pvname) }
    match t.callback.invoke t.args t.pvname with
    | (Except.ok _, enqs) =>
        (s1, Event.dequeued t :: Event.invoked t ::
          enqs.map (fun p => Event.enqueued p.1 p.2))
    | (Except.error msg, _) =>
        (s1, [Event.dequeued t, Event.invoked t, Event.raised t msg,
          Event.loggedException t.callback t.pvname])

/-- The worker `run` loop under an environment schedule.  Each entry gives,
for one loop iteration, the value of `stop_event.is_set()` the worker
observes at the `while` test and the result of the bounded `queue.get`
(`none` = `queue.Empty` timeout, whereupon the body does nothing).  When the
stop event is observed set, the loop exits, the worker detaches its context
and the thread terminates. -/
def runFrom (s : WorkerSt) : List (Bool × Option Task) → WorkerSt × List Event
  | [] => (s, [])
  | (stopSet, got) :: rest =>
    if stopSet then (s, [Event.exited])
    else
      match got with
      | none => runFrom s rest
      | some t =>
        let r1 := execTask s t
        let r2 := runFrom r1.1 rest
        (r2.1, r1.2 ++ r2.2)

/-- The worker loop draining a queue that holds the given tasks, with the
stop event clear throughout: each iteration's `queue.get` returns the queue
head.  This is `runFrom` on the schedule that feeds the tasks in queue
order. -/
def drain (s : WorkerSt) : List Task → WorkerSt × List Event
  | [] => (s, [])
  | t :: ts =>
    let r1 := execTask s t
    let r2 := drain r1.1 ts
    (r2.1, r1.2 ++ r2.2)

/-- FIFO `queue.Queue.put`: enqueue at the tail. -/
def put (q : List Task) (t : Task) : List Task := q ++ [t]

/-- FIFO `queue.Queue.get`: dequeue from the head. -/
def getQ (q : List Task) : Option (Task × List Task) :=
  match q with
  | [] => none
  | t :: ts => some (t, ts)

/-- The tasks a trace dequeued, in order. -/
def dequeuedTasks (evs : List Event) : List Task :=
  evs.filterMap (fun e => match e with | Event.dequeued t => some t | _ => none)

/-- The tasks a trace actually invoked (callbacks whose execution began), in
order. -/
def invokedTasks (evs : List Event) : List Task :=
  evs.filterMap (fun e => match e with | Event.invoked t => some t | _ => none)

/-- The `EventDispatcher` state: the thread map in insertion order, the
store of queues (indices 0-2 are the private queues of `metadata`,
`monitor`, `get_put`; index 3 is the shared utility queue), and the stop
event. -/
structure EventDispatcher where
  threads : List WorkerSt
  queues : List (List Task)
  stop_event : Bool
deriving DecidableEq

/-- Name of the i-th utility worker, as built by the comprehension
in `EventDispatcher.__init__`. -/
def utilName (i : Nat) : String := "util" ++ toString i

/-- The utility worker names `util0 .. util(n-1)`. -/
def utilNames (n : Nat) : List String := (List.range n).map utilName

/-- Index of the shared utility queue in the queue store. -/
def utilityQid : Nat := 3

/-- `EventDispatcher.__init__`: starts one worker per hardcoded category
(`metadata`, `monitor`, `get_put`), each with its own fresh private queue,
then `utility_threads` workers all bound to the single shared utility
queue.  Every thread is started before the constructor returns; the stop
event starts clear.  The category names are fixed in the constructor body:
no parameter supplies them. -/
def EventDispatcher.init (utility_threads : Nat) : EventDispatcher :=
  { threads := [mkWorker "metadata" 0, mkWorker "monitor" 1, mkWorker "get_put" 2]
      ++ (List.range utility_threads).map (fun i => mkWorker (utilName i) utilityQid),
    queues := [[], [], [], []],
    stop_event := false }

/-- `EventDispatcher.is_alive`: whether any thread in the map is alive. -/
def EventDispatcher.is_alive (d : EventDispatcher) : Bool :=
  d.threads.any (fun w => w.alive)

/-- `EventDispatcher.stop`: sets the stop event, joins every worker in the
map (each loop observes the set event within one poll timeout and
terminates, so every join returns), then clears the thread map. -/
def EventDispatcher.stop (d : EventDispatcher) : EventDispatcher :=
  { d with stop_event := true, threads := [] }

/-- `EventDispatcher.schedule_utility_task`: puts one task on the shared
utility queue. -/
def EventDispatcher.schedule_utility_task (d : EventDispatcher) (cb : Cb)
    (args : List Nat) (pv : Option String) : EventDispatcher :=
  { d with queues := d.queues.set utilityQid (put (d.queues.getD utilityQid []) ⟨cb, args, pv⟩) }

/-- Dictionary lookup `dispatcher._threads[event_type]`, as an option. -/
def EventDispatcher.findThread (d : EventDispatcher) (et : String) : Option WorkerSt :=
  d.threads.find? (fun w => w.name = et)

/-- The error surfaced by the `assert event_type in dispatcher._threads`
precondition check in `wrap_callback`. -/
inductive WrapError where
  | invalidCategory : WrapError
deriving DecidableEq

/-- `wrap_callback`: returns the callback unchanged when it is `None` or
already carries the `_wrapped_callback` marker (both checks happen before
the category assertion); otherwise asserts the category is a registered
thread name, captures that worker's queue, and returns a marked wrapper
whose invocation enqueues the deferred task on the captured queue. -/
def wrap_callback (d : EventDispatcher) (event_type : String)
    (callback : Option Cb) : Except WrapError (Option Cb) :=
  match callback with
  | none => Except.ok none
  | some cb =>
    if cb.wrappedFlag then Except.ok (some cb)
    else
      match d.findThread event_type with
      | none => Except.error WrapError.invalidCategory
      | some w => Except.ok (some (Cb.wrapped w.qid cb))

/-- Sample ordinary callback used by concrete witnesses. -/
def cbSample : Cb := Cb.base (some "value_cb") Behavior.ok

/-- Sample raising callback used by concrete witnesses. -/
def cbRaising : Cb := Cb.base (some "bad_cb") (Behavior.raises "boom")

/-- Sample callable without a `__name__` attribute. -/
def cbNameless : Cb := Cb.base none (Behavior.raises "never-invoked")

/-- Sample tasks used by concrete witnesses. -/
def taskOk : Task := ⟨cbSample, [1], some "pv:a"⟩

/-- A second well-behaved sample task. -/
def taskOk2 : Task := ⟨Cb.base (some "other_cb") Behavior.ok, [2], none⟩

/-- A sample task whose callback raises on invocation. -/
def taskBad : Task := ⟨cbRaising, [3], some "pv:b"⟩

/-- A sample task whose callable has no `__name__` attribute. -/
def taskNameless : Task := ⟨cbNameless, [], some "pv:c"⟩

/-- Sample dispatcher with one utility worker. -/
def dSample : EventDispatcher := EventDispatcher.init 1

/-- The wrapper that `wrap_callback` builds for `cbSample` on the `monitor`
category of `dSample`. -/
def wSample : Option Cb := some (Cb.wrapped 1 cbSample)

theorem dequeuedTasks_append (a b : List Event) :
    dequeuedTasks (a ++ b) = dequeuedTasks a ++ dequeuedTasks b := by
  simp [dequeuedTasks, List.filterMap_append]

theorem invokedTasks_append (a b : List Event) :
    invokedTasks (a ++ b) = invokedTasks a ++ invokedTasks b := by
  simp [invokedTasks, List.filterMap_append]

theorem dequeuedTasks_execTask (s : WorkerSt) (t : Task) :
    dequeuedTasks (execTask s t).2 = [t] := by
  obtain ⟨cb, args, pv⟩ := t
  cases cb with
  | base nm bh =>
    cases nm <;> cases bh <;> simp [execTask, Cb.pyName, Cb.invoke, dequeuedTasks]
  | wrapped q tgt => simp [execTask, Cb.pyName, Cb.invoke, dequeuedTasks]

theorem invokedTasks_execTask (s : WorkerSt) (t : Task) :
    invokedTasks (execTask s t).2 = if t.callback.pyName.isSome then [t] else [] := by
  obtain ⟨cb, args, pv⟩ := t
  cases cb with
  | base nm bh =>
    cases nm <;> cases bh <;> simp [execTask, Cb.pyName, Cb.invoke, invokedTasks]
  | wrapped q tgt => simp [execTask, Cb.pyName, Cb.invoke, invokedTasks]

theorem dequeuedTasks_drain (s : WorkerSt) (ts : List Task) :
    dequeuedTasks (drain s ts).2 = ts := by
  induction ts generalizing s with
  | nil => rfl
  | cons t ts ih =>
    simp [drain, dequeuedTasks_append, dequeuedTasks_execTask, ih]

theorem invokedTasks_drain (s : WorkerSt) (ts : List Task) :
    invokedTasks (drain s ts).2 = ts.filter (fun t => t.callback.pyName.isSome) := by
  induction ts generalizing s with
  | nil => rfl
  | cons t ts ih =>
    rcases h : t.callback.pyName with _ | n <;>
      simp [drain, invokedTasks_append, invokedTasks_execTask, ih, h, List.filter_cons]

theorem drain_append (s : WorkerSt) (xs ys : List Task) :
    (drain s (xs ++ ys)).2 = (drain s xs).2 ++ (drain (drain s xs).1 ys).2 := by
  induction xs generalizing s with
  | nil => simp [drain]
  | cons x xs ih => simp [drain, ih, List.append_assoc]

theorem foldl_put (acc ts : List Task) : List.foldl put acc ts = acc ++ ts := by
  induction ts generalizing acc with
  | nil => simp
  | cons t ts ih => simp [put, ih]

theorem runFrom_feed (s : WorkerSt) (ts : List Task) :
    runFrom s (ts.map (fun t => (false, some t))) = drain s ts := by
  induction ts generalizing s with
  | nil => rfl
  | cons t ts ih => simp [runFrom, drain, ih]

/-- C1: a task whose callback raises on invocation is caught inside the
worker loop: its full effect is one dequeue, one invocation, the caught
raise and one exception log entry carrying the callback and the `pvname`
correlation key (no re-enqueue, no retry), the exception does not
propagate, and every task enqueued before or after it on the queue is
still dequeued in order. -/
theorem C1_isolation (s : WorkerSt) (ts1 ts2 : List Task) (t : Task) (nm msg : String)
    (h1 : t.callback.pyName = some nm)
    (h2 : t.callback.invoke t.args t.pvname = (Except.error msg, [])) :
    (execTask s t).2 = [Event.dequeued t, Event.invoked t, Event.raised t msg,
      Event.loggedException t.callback t.pvname] ∧
    dequeuedTasks (drain s (ts1 ++ t :: ts2)).2 = ts1 ++ t :: ts2 ∧
    Event.loggedException t.callback t.pvname ∈ (drain s (ts1 ++ t :: ts2)).2 := by
  have hexec : ∀ s' : WorkerSt, (execTask s' t).2 =
      [Event.dequeued t, Event.invoked t, Event.raised t msg,
        Event.loggedException t.callback t.pvname] := by
    intro s'
    simp [execTask, h1, h2]
  refine ⟨hexec s, dequeuedTasks_drain _ _, ?_⟩
  rw [drain_append]
  refine List.mem_append_right _ ?_
  simp [drain, hexec]

/-- Witness for C1 at concrete inputs: the middle task's callback raises,
yet all three tasks are dequeued in enqueue order. -/
theorem C1_isolation_witness :
    taskBad.callback.pyName = some "bad_cb" ∧
    taskBad.callback.invoke taskBad.args taskBad.pvname = (Except.error "boom", []) ∧
    dequeuedTasks (drain (mkWorker "monitor" 1) ([taskOk] ++ taskBad :: [taskOk2])).2
      = [taskOk] ++ taskBad :: [taskOk2] :=
  ⟨rfl, rfl,
    (C1_isolation (mkWorker "monitor" 1) [taskOk] [taskOk2] taskBad "bad_cb" "boom"
      rfl rfl).2.1⟩

/-- C2: FIFO within one queue.  Enqueuing the tasks `ts` in order with
`put` onto an empty queue yields the queue `ts`, and the worker loop fed
from that queue dequeues them in exactly that order; the callbacks that get
invoked are invoked in the same order (those with a `__name__`; the others
are dequeued in position but dropped at the identity lookup). -/
theorem C2_fifo (s : WorkerSt) (ts : List Task) :
    List.foldl put [] ts = ts ∧
    dequeuedTasks (runFrom s ((List.foldl put [] ts).map (fun t => (false, some t)))).2
      = ts ∧
    invokedTasks (runFrom s ((List.foldl put [] ts).map (fun t => (false, some t)))).2
      = ts.filter (fun t => t.callback.pyName.isSome) := by
  have hfold : List.foldl put [] ts = ts := by simpa using foldl_put [] ts
  refine ⟨hfold, ?_, ?_⟩ <;> rw [hfold, runFrom_feed]
  · exact dequeuedTasks_drain s ts
  · exact invokedTasks_drain s ts

/-- C3: `stop()` sets the stop event and leaves the thread map empty after
joining every worker; a second `stop()` finds the event already set and no
threads to join, so it is a no-op: `stop` is idempotent. -/
theorem C3_stop_idempotent (d : EventDispatcher) :
    d.stop.stop_event = true ∧ d.stop.threads = [] ∧ d.stop.stop = d.stop :=
  ⟨rfl, rfl, rfl⟩

/-- C4: after `stop()` returns no managed worker is alive, and a worker
loop that observes the stop event set exits immediately without touching
its queue; consequently the loop's behaviour is the same whatever tasks the
environment would have offered after the first observation of the stop
event — no task is ever dequeued once the set stop event is observed. -/
theorem C4_shutdown :
    (∀ d : EventDispatcher, d.stop.is_alive = false) ∧
    (∀ (s : WorkerSt) (g : Option Task) (rest : List (Bool × Option Task)),
      runFrom s ((true, g) :: rest) = (s, [Event.exited])) ∧
    (∀ (s : WorkerSt) (pre : List (Bool × Option Task)) (g : Option Task)
      (rest : List (Bool × Option Task)),
      runFrom s (pre ++ (true, g) :: rest) = runFrom s (pre ++ [(true, g)])) := by
  refine ⟨fun d => rfl, fun s g rest => rfl, fun s pre g rest => ?_⟩
  induction pre generalizing s with
  | nil => rfl
  | cons hd tl ih =>
    rcases hd with ⟨b, got⟩
    cases b with
    | true => rfl
    | false =>
      cases got with
      | none =>
        simp only [List.cons_append, runFrom]
        exact ih _
      | some t =>
        simp only [List.cons_append, runFrom, List.append_eq]
        rw [ih]

/-- C5 (amended): for a callback that is present and not already wrapped,
`wrap_callback` on an unregistered category fails with the invalid-category
assertion error, and on a registered category succeeds with a wrapper bound
to that worker's queue.  (The claim as stated fails for `None` and for
already-wrapped callbacks, which are returned before the category check;
see the counterexample.) -/
theorem C5_invalid_category (d : EventDispatcher) (et : String) (cb : Cb)
    (h : cb.wrappedFlag = false) :
    (d.findThread et = none →
      wrap_callback d et (some cb) = Except.error WrapError.invalidCategory) ∧
    (∀ w : WorkerSt, d.findThread et = some w →
      wrap_callback d et (some cb) = Except.ok (some (Cb.wrapped w.qid cb))) := by
  constructor
  · intro hf
    simp [wrap_callback, h, hf]
  · intro w hf
    simp [wrap_callback, h, hf]

/-- Witness for C5 at concrete inputs: on the sample dispatcher the
category `bogus2` is unregistered and wrapping an ordinary callback for it
fails with the invalid-category error. -/
theorem C5_invalid_category_witness :
    cbSample.wrappedFlag = false ∧
    dSample.findThread "bogus2" = none ∧
    wrap_callback dSample "bogus2" (some cbSample)
      = Except.error WrapError.invalidCategory :=
  ⟨rfl, rfl, (C5_invalid_category dSample "bogus2" cbSample rfl).1 rfl⟩

/-- Counterexample to C5 as stated: an already-wrapped callback passed with
an unregistered category name is returned unchanged — the `_wrapped_callback`
short-circuit runs before the category assertion, so no invalid-category
error is raised. -/
theorem C5_counterexample :
    dSample.findThread "bogus" = none ∧
    wrap_callback dSample "bogus" (some (Cb.wrapped 1 cbSample))
      = Except.ok (some (Cb.wrapped 1 cbSample)) ∧
    wrap_callback dSample "bogus" (some (Cb.wrapped 1 cbSample))
      ≠ Except.error WrapError.invalidCategory := by
  refine ⟨rfl, rfl, ?_⟩
  intro hcontra
  rw [show wrap_callback dSample "bogus" (some (Cb.wrapped 1 cbSample))
      = Except.ok (some (Cb.wrapped 1 cbSample)) from rfl] at hcontra
  exact Except.noConfusion hcontra

/-- C6: wrapping is idempotent.  Whenever a wrap call succeeds with result
`w`, wrapping `w` again for the same category returns `w` itself; moreover
every some-result of a wrap carries the `_wrapped_callback` marker and its
invocation performs exactly one enqueue per call, never two. -/
theorem C6_wrap_idempotent (d : EventDispatcher) (et : String) (cb w : Option Cb)
    (h : wrap_callback d et cb = Except.ok w) :
    wrap_callback d et w = Except.ok w ∧
    (∀ c : Cb, w = some c → c.wrappedFlag = true) ∧
    (∀ (c : Cb) (args : List Nat) (pv : Option String),
      w = some c → ((c.invoke args pv).2).length = 1) := by
  cases cb with
  | none =>
    have hw : w = none := by
      have h' := h
      simp [wrap_callback] at h'
      exact h'.symm
    subst hw
    refine ⟨rfl, ?_, ?_⟩
    · intro c hc
      cases hc
    · intro c args pv hc
      cases hc
  | some c0 =>
    cases hfl : c0.wrappedFlag with
    | true =>
      have hw : w = some c0 := by
        have h' := h
        simp [wrap_callback, hfl] at h'
        exact h'.symm
      subst hw
      cases c0 with
      | base nm bh => simp [Cb.wrappedFlag] at hfl
      | wrapped q tgt =>
        refine ⟨by simp [wrap_callback, Cb.wrappedFlag], ?_, ?_⟩
        · intro c hc
          cases hc
          rfl
        · intro c args pv hc
          cases hc
          rfl
    | false =>
      cases hft : d.findThread et with
      | none =>
        exfalso
        have h' := h
        simp [wrap_callback, hfl, hft] at h'
      | some wk =>
        have hw : w = some (Cb.wrapped wk.qid c0) := by
          have h' := h
          simp [wrap_callback, hfl, hft] at h'
          exact h'.symm
        subst hw
        refine ⟨by simp [wrap_callback, Cb.wrappedFlag], ?_, ?_⟩
        · intro c hc
          cases hc
          rfl
        · intro c args pv hc
          cases hc
          rfl

/-- Witness for C6 at concrete inputs: wrapping the sample callback for
`monitor` yields `wSample`; wrapping that result again returns it
unchanged, and invoking it enqueues exactly one task. -/
theorem C6_wrap_idempotent_witness :
    wrap_callback dSample "monitor" (some cbSample) = Except.ok wSample ∧
    wrap_callback dSample "monitor" wSample = Except.ok wSample ∧
    ((Cb.wrapped 1 cbSample).invoke [9] none).2.length = 1 :=
  ⟨rfl,
    (C6_wrap_idempotent dSample "monitor" (some cbSample) wSample rfl).1,
    (C6_wrap_idempotent dSample "monitor" (some cbSample) wSample rfl).2.2
      (Cb.wrapped 1 cbSample) [9] none rfl⟩

/-- C7 (amended): construction starts one worker for each of the three
categories fixed in the constructor body — `metadata`, `monitor`,
`get_put` — each bound to its own private queue (indices 0, 1, 2), plus
`n` utility workers all bound to the single shared utility queue; every
worker is started before the constructor returns and the stop event starts
clear.  Only the utility-pool size is a parameter; the category names are
not. -/
theorem C7_construction (n : Nat) :
    (EventDispatcher.init n).threads.map WorkerSt.name
      = ["metadata", "monitor", "get_put"] ++ utilNames n ∧
    (∀ w ∈ (EventDispatcher.init n).threads, w.alive = true) ∧
    (EventDispatcher.init n).threads.map WorkerSt.qid
      = [0, 1, 2] ++ List.replicate n utilityQid ∧
    (EventDispatcher.init n).threads.length = 3 + n ∧
    (EventDispatcher.init n).stop_event = false := by
  refine ⟨?_, ?_, ?_, ?_, rfl⟩
  · simp [EventDispatcher.init, mkWorker, utilNames, List.map_map, Function.comp]
  · intro w hw
    simp [EventDispatcher.init, mkWorker, List.mem_append, List.mem_map] at hw
    rcases hw with rfl | rfl | rfl | ⟨i, hi, rfl⟩ <;> rfl
  · simp [EventDispatcher.init, mkWorker, List.map_map, Function.comp_def]
  · simp [EventDispatcher.init]
    omega

/-- Counterexample to C7 as stated: the caller cannot supply the category
names — they are fixed in the constructor body.  A dispatcher built with
utility-pool size 2 has exactly the threads below; in particular no worker
exists for a caller-chosen category such as `a`. -/
theorem C7_counterexample :
    (EventDispatcher.init 2).threads.map WorkerSt.name
      = ["metadata", "monitor", "get_put", "util0", "util1"] ∧
    "a" ∉ (EventDispatcher.init 2).threads.map WorkerSt.name := by
  refine ⟨rfl, ?_⟩
  decide

/-- C8 (amended): `current_callback` starts as `None`, and executing a task
whose callable has a `__name__` sets it to that name paired with the task's
`pvname` before invocation; it is not cleared when execution finishes, so
after a task completes it retains that task's identity until the next named
task overwrites it (and a failed identity lookup leaves it untouched). -/
theorem C8_current_callback (s : WorkerSt) (t : Task) (nm : String) (qid : Nat) :
    (mkWorker nm qid).current_callback = none ∧
    (execTask s t).1.current_callback =
      (match t.callback.pyName with
       | some n => some (n, t.pvname)
       | none => s.current_callback) := by
  refine ⟨rfl, ?_⟩
  obtain ⟨cb, args, pv⟩ := t
  cases cb with
  | base nm' bh =>
    cases nm' <;> cases bh <;> simp [execTask, Cb.pyName, Cb.invoke]
  | wrapped q tgt => simp [execTask, Cb.pyName, Cb.invoke]

/-- Counterexample to C8 as stated: after the worker has finished the only
task on its queue it is idle, yet `current_callback` still reports that
task's identity instead of having been cleared to `None`. -/
theorem C8_counterexample :
    (drain (mkWorker "monitor" 1) [taskOk]).1.current_callback
      = some ("value_cb", some "pv:a") ∧
    (drain (mkWorker "monitor" 1) [taskOk]).1.current_callback ≠ none := by
  refine ⟨rfl, ?_⟩
  decide

/-- C9: wrapping `None` is the identity for every dispatcher and every
category name, registered or not: the `callback is None` test returns the
callback before the category assertion is reached and before any wrapper is
built. -/
theorem C9_wrap_none (d : EventDispatcher) (et : String) :
    wrap_callback d et none = Except.ok none := rfl

/-- C10: a dequeued task whose callable has no `__name__` attribute fails
inside the protected region at the identity lookup: the resulting error is
caught and logged with the callback and correlation key, the callable is
never invoked, the worker state (including `current_callback`) is
unchanged, and the worker continues to dequeue the remaining tasks in
order. -/
theorem C10_nameless (s : WorkerSt) (t : Task) (ts : List Task)
    (h : t.callback.pyName = none) :
    (execTask s t).2 = [Event.dequeued t, Event.loggedException t.callback t.pvname] ∧
    Event.invoked t ∉ (execTask s t).2 ∧
    (execTask s t).1 = s ∧
    dequeuedTasks (drain s (t :: ts)).2 = t :: ts := by
  have he : execTask s t
      = (s, [Event.dequeued t, Event.loggedException t.callback t.pvname]) := by
    simp [execTask, h]
  refine ⟨by rw [he], ?_, by rw [he], dequeuedTasks_drain _ _⟩
  rw [he]
  simp

/-- Witness for C10 at concrete inputs: the nameless task is dequeued and
logged but never invoked, and the next task still runs. -/
theorem C10_nameless_witness :
    taskNameless.callback.pyName = none ∧
    (execTask (mkWorker "metadata" 0) taskNameless).2
      = [Event.dequeued taskNameless,
         Event.loggedException taskNameless.callback taskNameless.pvname] ∧
    Event.invoked taskNameless ∉ (execTask (mkWorker "metadata" 0) taskNameless).2 ∧
    dequeuedTasks (drain (mkWorker "metadata" 0) (taskNameless :: [taskOk])).2
      = taskNameless :: [taskOk] :=
  ⟨rfl,
    (C10_nameless (mkWorker "metadata" 0) taskNameless [taskOk] rfl).1,
    (C10_nameless (mkWorker "metadata" 0) taskNameless [taskOk] rfl).2.1,
    (C10_nameless (mkWorker "metadata" 0) taskNameless [taskOk] rfl).2.2.2⟩

end Dispatch
